import Mathlib

/-!
Verification development for the bilibili favourites downloader
(`src/bilifavirousdownload.py`).

The Python source is shallowly embedded: pure computations become Lean
functions, the network / filesystem / subprocess environment becomes an
explicit `Env` oracle, and the mutable downloader state (in-memory
dedup set, persisted history store, temporary track files) is passed as
an explicit `DLState`.  Text is modelled as `List Char` (Python strings
are sequences of code points, so list operations line up with slicing,
`str.strip`, and `re.sub` with a character class).
-/

namespace Bili

/-- The character class removed by the sanitizing regex
`re.sub(r'[\\/:*?"<>|]', "", ...)` used at lines 282, 290, 292, 447. -/
def isIllegalChar (c : Char) : Bool :=
  c == '\\' || c == '/' || c == ':' || c == '*' || c == '?' ||
  c == '"' || c == '<' || c == '>' || c == '|'

/-- `re.sub(r'[\\/:*?"<>|]', "", s)`: delete every illegal character. -/
def stripIllegal (s : List Char) : List Char :=
  s.filter (fun c => !isIllegalChar c)

/-- Python `str.strip()`: drop whitespace from both ends. -/
def pyStrip (s : List Char) : List Char :=
  ((s.dropWhile Char.isWhitespace).reverse.dropWhile Char.isWhitespace).reverse

/-- `re.sub(r'[\\/:*?"<>|]', "", s).strip()`, the treatment applied to the
page-part label and the uploader name in `download_video`. -/
def cleanComponent (s : List Char) : List Char :=
  pyStrip (stripIllegal s)

/-- `re.sub(r'[\\/:*?"<>|]', "", title).strip()[:100]` (line 282): the
sanitized title additionally truncated to its first 100 characters. -/
def cleanTitle (s : List Char) : List Char :=
  (cleanComponent s).take 100

/-- The output filename f-string of line 292:
`f"{title}_{sub(part)}-{up_name}{suffix}.mp4"` where `title` and
`up_name` are the already-sanitized variables of lines 282 and 290. -/
def output_name (title part upName suffix : List Char) : List Char :=
  cleanTitle title ++ ('_' :: cleanComponent part) ++ ('-' :: cleanComponent upName)
    ++ suffix ++ ".mp4".toList

/-! ## Stream resolution (`_get_media_urls`, lines 321-361) -/

/-- One entry of `dash["video"]` / `dash["audio"]`: quality identifier,
bandwidth, and the two possible URL keys. -/
structure StreamCand where
  id : Int
  bandwidth : Int
  baseUrl : Option (List Char)
  base_url : Option (List Char)
deriving DecidableEq, Repr

/-- The `dash` object of the playurl response. -/
structure DashData where
  video : List StreamCand
  audio : List StreamCand
deriving DecidableEq, Repr

/-- The playurl response body: application-level `code` plus the optional
`dash` member. -/
structure PlayurlResp where
  code : Int
  dash : Option DashData
deriving DecidableEq, Repr

/-- Python truthiness of an optional string: `None` and `""` are falsy. -/
def pyTruthy : Option (List Char) → Bool
  | none => false
  | some s => !s.isEmpty

/-- `stream.get("baseUrl") or stream.get("base_url")` (lines 355-356). -/
def getUrl (c : StreamCand) : Option (List Char) :=
  if pyTruthy c.baseUrl then c.baseUrl else c.base_url

/-- Python `max(iterable, key=key)` starting from a current best: later
elements replace the current best only when strictly greater, so the
first maximal element wins ties. -/
def pyMaxAux (key : StreamCand → Int) (cur : StreamCand) : List StreamCand → StreamCand
  | [] => cur
  | x :: xs => pyMaxAux key (if key x > key cur then x else cur) xs

/-- Python `max(iterable, key=key, default=None)`. -/
def pyMax (key : StreamCand → Int) : List StreamCand → Option StreamCand
  | [] => none
  | x :: xs => some (pyMaxAux key x xs)

/-- Line 346-348: `max((v for v in dash["video"] if v["id"] == quality),
key=lambda x: x["bandwidth"], default=None)`. -/
def selectVideoStream (vlist : List StreamCand) (quality : Int) : Option StreamCand :=
  pyMax (fun x => x.bandwidth) (vlist.filter (fun v => v.id == quality))

/-- Lines 349-353: prefer the first candidate with `id == 30251`
(hi-res audio); otherwise take the bandwidth maximum of the whole list. -/
def selectAudioStream (alist : List StreamCand) : Option StreamCand :=
  match alist.find? (fun a => a.id == 30251) with
  | some a => some a
  | none => pyMax (fun x => x.bandwidth) alist

/-- `_get_media_urls` (lines 321-361).  `resp = none` models the request
itself raising (caught at line 359, returning `(None, None)`). -/
def get_media_urls (resp : Option PlayurlResp) (quality : Int) :
    Option (List Char) × Option (List Char) :=
  match resp with
  | none => (none, none)
  | some r =>
    if r.code ≠ 0 then (none, none)
    else
      match r.dash with
      | none => (none, none)
      | some d =>
        match selectVideoStream d.video quality, selectAudioStream d.audio with
        | some v, some a => (getUrl v, getUrl a)
        | _, _ => (none, none)

/-! ## The history store (`_load_download_history`, `_save_download_entry`) -/

/-- One record of the persisted history JSON array (lines 104-111). -/
structure LedgerEntry where
  bvid : List Char
  cid : Int
  quality : Int
  title : List Char
  up : List Char
  timestamp : Int
deriving DecidableEq, Repr

/-- The persisted history file, classified by how `json.load` sees it:
missing, present but zero-size, present but syntactically invalid, or a
valid array of records. -/
inductive StoreFile
  | absent
  | emptyFile
  | invalid
  | valid (records : List LedgerEntry)
deriving DecidableEq, Repr

/-- `_load_download_history` (lines 82-96): returns the in-memory key set
(as a list of keys) together with whether an error was reported.  A
missing or zero-size file is empty history (lines 84-86, 90); a
`JSONDecodeError` is logged and yields empty history (lines 91-93). -/
def load_download_history : StoreFile → List (List Char × Int × Int) × Bool
  | StoreFile.absent => ([], false)
  | StoreFile.emptyFile => ([], false)
  | StoreFile.invalid => ([], true)
  | StoreFile.valid rs => (rs.map (fun r => (r.bvid, r.cid, r.quality)), false)

/-- `_save_download_entry` (lines 98-115): re-reads the persisted file,
appends the record, and rewrites the whole file.  When the file exists
but `json.load` raises (zero-size or invalid content), the exception is
caught at line 114: nothing is appended and the file is left unchanged.
Returns the new file content and whether the save succeeded. -/
def save_download_entry (store : StoreFile) (e : LedgerEntry) : StoreFile × Bool :=
  match store with
  | StoreFile.absent => (StoreFile.valid [e], true)
  | StoreFile.emptyFile => (StoreFile.emptyFile, false)
  | StoreFile.invalid => (StoreFile.invalid, false)
  | StoreFile.valid rs => (StoreFile.valid (rs ++ [e]), true)

/-! ## The fetcher (`_download_media`, lines 214-237) -/

/-- State of the file at one destination path. -/
inductive FileSt
  | absent
  | incomplete
  | complete
deriving DecidableEq, Repr

/-- Outcome of one transfer attempt: success writes the complete body;
failure raises with, possibly, a partially written file on disk. -/
inductive AttemptResult
  | ok
  | fail (leftOver : Bool)
deriving DecidableEq, Repr

/-- `if path.exists(): path.unlink()` (lines 234-235). -/
def unlinkIfExists : FileSt → FileSt
  | FileSt.absent => FileSt.absent
  | FileSt.incomplete => FileSt.absent
  | FileSt.complete => FileSt.absent

/-- The retry loop of `_download_media`: `retry` is the current attempt
index, the fuel is the number of attempts left, `st` the current file
state at the destination.  Returns (result, final file state, file
state observed at the start of each retry after a failed attempt). -/
def download_media_aux (outcome : Nat → AttemptResult) :
    Nat → Nat → FileSt → Bool × FileSt × List FileSt
  | _, 0, st => (false, st, [])
  | retry, fuel + 1, st =>
    match outcome retry with
    | AttemptResult.ok => (true, FileSt.complete, [])
    | AttemptResult.fail leftOver =>
      let afterExc := if leftOver then FileSt.incomplete else st
      let afterCleanup := unlinkIfExists afterExc
      let r := download_media_aux outcome (retry + 1) fuel afterCleanup
      (r.1, r.2.1, afterCleanup :: r.2.2)

/-- `_download_media` with the per-attempt trace. -/
def download_media_run (outcome : Nat → AttemptResult) (maxRetries : Nat) :
    Bool × FileSt × List FileSt :=
  download_media_aux outcome 0 maxRetries FileSt.absent

/-- `_download_media` (lines 214-237): result and final destination file
state. -/
def download_media (outcome : Nat → AttemptResult) (maxRetries : Nat) : Bool × FileSt :=
  ((download_media_run outcome maxRetries).1, (download_media_run outcome maxRetries).2.1)

/-! ## The muxer (`_merge_files`, lines 239-261) -/

/-- How the external ffmpeg process ends: exit 0, non-zero exit
(`CalledProcessError` because of `check=True`), or a launch failure such
as the executable being missing. -/
inductive ProcResult
  | exited0
  | exitedNonzero
  | launchError
deriving DecidableEq, Repr

/-- How `_merge_files` terminates: a returned boolean, or an exception
escaping it. -/
inductive MergeOutcome
  | returned (b : Bool)
  | raised
deriving DecidableEq, Repr

/-- The fixed ffmpeg argument vector of lines 242-250. -/
def ffmpeg_args (ffmpegPath videoPath audioPath outputPath : String) : List String :=
  [ffmpegPath, "-y", "-loglevel", "error", "-i", videoPath, "-i", audioPath,
   "-c", "copy", outputPath]

/-- The `stderr` captured on a `CalledProcessError`: `subprocess.run` is
invoked with `stderr=subprocess.DEVNULL` (line 253), so the exception
object's `stderr` attribute is `None`. -/
def capturedStderr : Option (List Char) := none

/-- `_merge_files` (lines 239-261).  On exit 0 it returns True.  On a
non-zero exit the handler at line 256 evaluates `e.stderr.decode()`;
since `e.stderr` is `None` this raises `AttributeError`, and an
exception raised inside an `except` clause is not caught by the sibling
`except Exception` clause of the same `try`, so it escapes
`_merge_files`.  A launch failure is caught at line 259 and returns
False. -/
def merge_files (pr : ProcResult) : MergeOutcome :=
  match pr with
  | ProcResult.exited0 => MergeOutcome.returned true
  | ProcResult.exitedNonzero =>
    match capturedStderr with
    | some _ => MergeOutcome.returned false
    | none => MergeOutcome.raised
  | ProcResult.launchError => MergeOutcome.returned false

/-! ## The acquisition pipeline (`download_video`, lines 263-319) -/

/-- One page of `video_info["pages"]`. -/
structure PageInfo where
  cid : Int
  part : List Char
deriving DecidableEq, Repr

/-- The `get_video_info` response body used by `download_video`:
`title`, `pages`, and `owner.get("name")`. -/
structure VideoInfo where
  title : List Char
  pages : List PageInfo
  ownerName : Option (List Char)
deriving DecidableEq, Repr

/-- The environment one `download_video` call runs against: the metadata
response, the playurl response, the per-attempt outcomes of the two
stream fetches, the ffmpeg process result, and the clock. -/
structure Env where
  videoInfo : Option VideoInfo
  playurl : Option PlayurlResp
  fetchVideo : Nat → AttemptResult
  fetchAudio : Nat → AttemptResult
  proc : ProcResult
  now : Int

/-- The downloader state touched by `download_video`: the in-memory
`self.downloaded` set (as a list of keys), the persisted history file,
and the two job-scoped temporary track files
`{bvid}_{cid}_video.m4s` / `{bvid}_{cid}_audio.m4s` (lines 302-303). -/
structure DLState where
  downloaded : List (List Char × Int × Int)
  store : StoreFile
  tempVideo : FileSt
  tempAudio : FileSt
deriving DecidableEq, Repr

/-- The externally visible effects performed by one `download_video`
call, in order: the metadata lookup (`get_video_info`), the stream
resolution (`_get_media_urls`), the two fetches, and the mux. -/
inductive Effect
  | metadataLookup
  | resolveStep
  | fetchV
  | fetchA
  | muxStep
deriving DecidableEq, Repr

/-- Result of one `download_video` call: the returned boolean, the new
downloader state, the output filename it computed (when it got that
far), and the effect trace. -/
structure DVResult where
  ret : Bool
  state : DLState
  outputName : Option (List Char)
  trace : List Effect
deriving DecidableEq, Repr

/-- The ledger record written on success (lines 104-111 via line 312),
with `title` and `up_name` as sanitized at lines 282 and 288-290. -/
def record_entry (env : Env) (vi : VideoInfo) (bvid : List Char) (cid quality : Int) :
    LedgerEntry :=
  { bvid := bvid, cid := cid, quality := quality,
    title := cleanTitle vi.title,
    up := cleanComponent (vi.ownerName.getD "unknown".toList),
    timestamp := env.now }

/-- `download_video` (lines 263-319).
* Line 274: if the key is in `self.downloaded`, return True at once.
* Lines 278-280: failed metadata lookup returns False.
* Lines 283-286: page with matching `cid` looked up; absent page
  returns False.
* Lines 292-296: output filename constructed (before resolution).
* Lines 298-300: `_get_media_urls`; a falsy video or audio URL returns
  False (temporary files not yet touched).
* Lines 305-309: `success = fetch(video) and fetch(audio) and merge`,
  short-circuiting left to right.
* Lines 311-313: on success, persist the entry and add the key.
* Lines 314-315: unlink both temporaries — reached on every path on
  which `success` was assigned; when `_merge_files` raises, control
  jumps from line 308 to the handler at line 317 and these lines are
  skipped, leaving both temporary files on disk.
* Line 317-319: the outer handler returns False. -/
def download_video (env : Env) (st : DLState) (maxRetries : Nat)
    (bvid : List Char) (cid quality : Int) (suffix : List Char) : DVResult :=
  if (bvid, cid, quality) ∈ st.downloaded then
    { ret := true, state := st, outputName := none, trace := [] }
  else
    match env.videoInfo with
    | none =>
      { ret := false, state := st, outputName := none, trace := [Effect.metadataLookup] }
    | some vi =>
      match vi.pages.find? (fun p => p.cid == cid) with
      | none =>
        { ret := false, state := st, outputName := none, trace := [Effect.metadataLookup] }
      | some page =>
        let outName := output_name vi.title page.part (vi.ownerName.getD "unknown".toList) suffix
        if !pyTruthy (get_media_urls env.playurl quality).1 ||
           !pyTruthy (get_media_urls env.playurl quality).2 then
          { ret := false, state := st, outputName := some outName,
            trace := [Effect.metadataLookup, Effect.resolveStep] }
        else
          if (download_media env.fetchVideo maxRetries).1 = false then
            { ret := false,
              state := { st with tempVideo := FileSt.absent, tempAudio := FileSt.absent },
              outputName := some outName,
              trace := [Effect.metadataLookup, Effect.resolveStep, Effect.fetchV] }
          else
            if (download_media env.fetchAudio maxRetries).1 = false then
              { ret := false,
                state := { st with tempVideo := FileSt.absent, tempAudio := FileSt.absent },
                outputName := some outName,
                trace := [Effect.metadataLookup, Effect.resolveStep, Effect.fetchV,
                          Effect.fetchA] }
            else
              match merge_files env.proc with
              | MergeOutcome.raised =>
                { ret := false,
                  state := { st with tempVideo := FileSt.complete,
                                     tempAudio := FileSt.complete },
                  outputName := some outName,
                  trace := [Effect.metadataLookup, Effect.resolveStep, Effect.fetchV,
                            Effect.fetchA, Effect.muxStep] }
              | MergeOutcome.returned false =>
                { ret := false,
                  state := { st with tempVideo := FileSt.absent, tempAudio := FileSt.absent },
                  outputName := some outName,
                  trace := [Effect.metadataLookup, Effect.resolveStep, Effect.fetchV,
                            Effect.fetchA, Effect.muxStep] }
              | MergeOutcome.returned true =>
                { ret := true,
                  state := { downloaded := st.downloaded ++ [(bvid, cid, quality)],
                             store := (save_download_entry st.store
                                        (record_entry env vi bvid cid quality)).1,
                             tempVideo := FileSt.absent, tempAudio := FileSt.absent },
                  outputName := some outName,
                  trace := [Effect.metadataLookup, Effect.resolveStep, Effect.fetchV,
                            Effect.fetchA, Effect.muxStep] }

/-- Resolution succeeds: both URLs returned by `_get_media_urls` are
truthy (line 299). -/
def resolve_ok (env : Env) (quality : Int) : Bool :=
  pyTruthy (get_media_urls env.playurl quality).1 &&
  pyTruthy (get_media_urls env.playurl quality).2

/-- All four pipeline stages succeed: resolution, both fetches, and the
mux returning True. -/
def stages_succeed (env : Env) (maxRetries : Nat) (quality : Int) : Bool :=
  resolve_ok env quality &&
  (download_media env.fetchVideo maxRetries).1 &&
  (download_media env.fetchAudio maxRetries).1 &&
  (merge_files env.proc == MergeOutcome.returned true)

/-! ## Concrete fixtures used by witnesses and counterexamples -/

/-- Attempt outcomes that fail twice (leaving a partial file) and
succeed on the third attempt. -/
def demoOutcome : Nat → AttemptResult :=
  fun n => if n < 2 then AttemptResult.fail true else AttemptResult.ok

/-- Attempt outcomes that always fail leaving a partial file. -/
def demoOutcomeAllFail : Nat → AttemptResult :=
  fun _ => AttemptResult.fail true

/-- The video candidate list of the spec's selection example: three
candidates at rank 80 with bandwidths 500k, 900k, 700k. -/
def demoVlist : List StreamCand :=
  [{ id := 80, bandwidth := 500000, baseUrl := some "u1".toList, base_url := none },
   { id := 80, bandwidth := 900000, baseUrl := some "u2".toList, base_url := none },
   { id := 80, bandwidth := 700000, baseUrl := some "u3".toList, base_url := none }]

/-- The audio candidate list of the spec's selection example: a 100k
ordinary candidate and a 50k hi-res (id 30251) candidate. -/
def demoAlist : List StreamCand :=
  [{ id := 30216, bandwidth := 100000, baseUrl := some "a1".toList, base_url := none },
   { id := 30251, bandwidth := 50000, baseUrl := some "a2".toList, base_url := none }]

/-- An environment in which every external interaction would fail;
used where the environment must not be reached at all. -/
def envNoop : Env :=
  { videoInfo := none, playurl := none,
    fetchVideo := fun _ => AttemptResult.fail false,
    fetchAudio := fun _ => AttemptResult.fail false,
    proc := ProcResult.launchError, now := 0 }

/-- A state whose ledger already records the key ("bv1", 2, 80). -/
def stRecorded : DLState :=
  { downloaded := [("bv1".toList, 2, 80)], store := StoreFile.valid [],
    tempVideo := FileSt.absent, tempAudio := FileSt.absent }

/-- An empty starting state with a valid empty store. -/
def stEmpty : DLState :=
  { downloaded := [], store := StoreFile.valid [],
    tempVideo := FileSt.absent, tempAudio := FileSt.absent }

/-- A playurl response offering one matching video candidate and one
audio candidate. -/
def respSimple : PlayurlResp :=
  { code := 0,
    dash := some
      { video := [{ id := 80, bandwidth := 500000, baseUrl := some "vurl".toList,
                    base_url := none }],
        audio := [{ id := 30216, bandwidth := 100000, baseUrl := some "aurl".toList,
                    base_url := none }] } }

/-- A single page with content-unit id 7. -/
def pageDemo : PageInfo := { cid := 7, part := "p1".toList }

/-- A simple metadata response. -/
def viDemo : VideoInfo :=
  { title := "t".toList, pages := [pageDemo], ownerName := some "up".toList }

/-- An environment where metadata, resolution and both fetches succeed
but ffmpeg exits with non-zero status. -/
def envMuxFail : Env :=
  { videoInfo := some viDemo,
    playurl := some respSimple,
    fetchVideo := fun _ => AttemptResult.ok,
    fetchAudio := fun _ => AttemptResult.ok,
    proc := ProcResult.exitedNonzero, now := 0 }

/-- An environment where every stage succeeds. -/
def envAllOk : Env :=
  { envMuxFail with proc := ProcResult.exited0 }

/-- A state whose persisted store is syntactically invalid. -/
def stCorrupt : DLState :=
  { downloaded := [], store := StoreFile.invalid,
    tempVideo := FileSt.absent, tempAudio := FileSt.absent }

/-- Metadata whose title sanitizes to 150 characters. -/
def viLong : VideoInfo :=
  { title := List.replicate 150 'a', pages := [pageDemo], ownerName := some "up".toList }

/-- The all-success environment with the long-title metadata. -/
def envLongTitle : Env := { envAllOk with videoInfo := some viLong }

/-- Metadata carrying the spec's sanitization example: title `a/b:c*d`,
uploader `x<y>z`. -/
def viSan : VideoInfo :=
  { title := "a/b:c*d".toList, pages := [pageDemo], ownerName := some "x<y>z".toList }

/-- The all-success environment with the sanitization-example metadata. -/
def envSan : Env := { envAllOk with videoInfo := some viSan }

/-- A probe record for the corrupted-store counterexample. -/
def corruptProbe : LedgerEntry :=
  { bvid := "bv".toList, cid := 1, quality := 80, title := "t".toList,
    up := "u".toList, timestamp := 0 }


/-! ## Properties of the Python max emulation -/

theorem pyMaxAux_mem (key : StreamCand → Int) (cur : StreamCand) (l : List StreamCand) :
    pyMaxAux key cur l = cur ∨ pyMaxAux key cur l ∈ l := by
  induction l generalizing cur with
  | nil => exact Or.inl rfl
  | cons x xs ih =>
    simp only [pyMaxAux]
    rcases ih (if key x > key cur then x else cur) with h | h
    · rw [h]
      by_cases hc : key x > key cur
      · simp only [if_pos hc]
        exact Or.inr (List.mem_cons_self _ _)
      · simp [if_neg hc]
    · exact Or.inr (List.mem_cons_of_mem _ h)

theorem pyMaxAux_ge (key : StreamCand → Int) (cur : StreamCand) (l : List StreamCand) :
    key cur ≤ key (pyMaxAux key cur l) ∧ ∀ x ∈ l, key x ≤ key (pyMaxAux key cur l) := by
  induction l generalizing cur with
  | nil => exact ⟨le_refl _, by simp⟩
  | cons x xs ih =>
    simp only [pyMaxAux]
    obtain ⟨h1, h2⟩ := ih (if key x > key cur then x else cur)
    constructor
    · refine le_trans ?_ h1
      by_cases hc : key x > key cur
      · simp only [if_pos hc]
        exact le_of_lt hc
      · simp only [if_neg hc]
        exact le_refl _
    · intro y hy
      rcases List.mem_cons.mp hy with rfl | hy
      · refine le_trans ?_ h1
        by_cases hc : key y > key cur
        · simp only [if_pos hc]
          exact le_refl _
        · simp only [if_neg hc]
          exact le_of_not_lt hc
      · exact h2 y hy

theorem pyMax_spec (key : StreamCand → Int) (l : List StreamCand) (m : StreamCand)
    (h : pyMax key l = some m) : m ∈ l ∧ ∀ x ∈ l, key x ≤ key m := by
  cases l with
  | nil => cases h
  | cons x xs =>
    simp only [pyMax, Option.some.injEq] at h
    subst h
    obtain ⟨h1, h2⟩ := pyMaxAux_ge key x xs
    refine ⟨?_, ?_⟩
    · rcases pyMaxAux_mem key x xs with h | h
      · rw [h]
        exact List.mem_cons_self _ _
      · exact List.mem_cons_of_mem _ h
    · intro y hy
      rcases List.mem_cons.mp hy with rfl | hy
      · exact h1
      · exact h2 y hy

/-! ## Properties of the fetch retry loop -/

theorem unlinkIfExists_eq (s : FileSt) : unlinkIfExists s = FileSt.absent := by
  cases s <;> rfl

theorem download_media_aux_success (outcome : Nat → AttemptResult) :
    ∀ (fuel r k : Nat) (st : FileSt), k < fuel → outcome (r + k) = AttemptResult.ok →
    (∀ i, i < k → outcome (r + i) ≠ AttemptResult.ok) →
    download_media_aux outcome r fuel st =
      (true, FileSt.complete, List.replicate k FileSt.absent) := by
  intro fuel
  induction fuel with
  | zero => intro r k st hk; omega
  | succ f ih =>
    intro r k st hk hok hfail
    cases k with
    | zero =>
      simp only [Nat.add_zero] at hok
      simp [download_media_aux, hok]
    | succ j =>
      have hr : outcome r ≠ AttemptResult.ok := by
        simpa using hfail 0 (Nat.succ_pos j)
      cases houtr : outcome r with
      | ok => exact absurd houtr hr
      | fail b =>
        have hok2 : outcome (r + 1 + j) = AttemptResult.ok := by
          have he : r + 1 + j = r + (j + 1) := by omega
          rw [he]; exact hok
        have hfail2 : ∀ i, i < j → outcome (r + 1 + i) ≠ AttemptResult.ok := by
          intro i hi
          have he : r + 1 + i = r + (i + 1) := by omega
          rw [he]
          exact hfail (i + 1) (by omega)
        simp only [download_media_aux, houtr, unlinkIfExists_eq]
        rw [ih (r + 1) j FileSt.absent (by omega) hok2 hfail2]
        simp [List.replicate_succ]

theorem download_media_aux_exhaust (outcome : Nat → AttemptResult) :
    ∀ (fuel r : Nat) (st : FileSt), 0 < fuel →
    (∀ i, i < fuel → outcome (r + i) ≠ AttemptResult.ok) →
    download_media_aux outcome r fuel st =
      (false, FileSt.absent, List.replicate fuel FileSt.absent) := by
  intro fuel
  induction fuel with
  | zero => intro r st h; omega
  | succ f ih =>
    intro r st _ hfail
    have hr : outcome r ≠ AttemptResult.ok := by
      simpa using hfail 0 (Nat.succ_pos f)
    cases houtr : outcome r with
    | ok => exact absurd houtr hr
    | fail b =>
      simp only [download_media_aux, houtr, unlinkIfExists_eq]
      cases f with
      | zero => simp [download_media_aux, List.replicate]
      | succ f2 =>
        have hfail2 : ∀ i, i < f2 + 1 → outcome (r + 1 + i) ≠ AttemptResult.ok := by
          intro i hi
          have he : r + 1 + i = r + (i + 1) := by omega
          rw [he]
          exact hfail (i + 1) (by omega)
        rw [ih (r + 1) FileSt.absent (Nat.succ_pos f2) hfail2]
        simp [List.replicate_succ]

/-! ## Sanitization properties -/

theorem mem_of_mem_dropWhile {p : Char → Bool} {l : List Char} {c : Char}
    (h : c ∈ l.dropWhile p) : c ∈ l := by
  induction l with
  | nil => simp at h
  | cons x xs ih =>
    cases hx : p x with
    | true =>
      simp only [List.dropWhile, hx] at h
      exact List.mem_cons_of_mem _ (ih h)
    | false =>
      simp only [List.dropWhile, hx] at h
      exact h

theorem pyStrip_subset (s : List Char) : ∀ c ∈ pyStrip s, c ∈ s := by
  intro c hc
  unfold pyStrip at hc
  rw [List.mem_reverse] at hc
  have h1 := mem_of_mem_dropWhile hc
  rw [List.mem_reverse] at h1
  exact mem_of_mem_dropWhile h1

theorem stripIllegal_no_illegal (s : List Char) :
    ∀ c ∈ stripIllegal s, isIllegalChar c = false := by
  intro c hc
  obtain ⟨-, h⟩ := List.mem_filter.mp hc
  simpa using h

theorem cleanComponent_no_illegal (s : List Char) :
    ∀ c ∈ cleanComponent s, isIllegalChar c = false := by
  intro c hc
  exact stripIllegal_no_illegal s c (pyStrip_subset _ c hc)

theorem cleanTitle_no_illegal (s : List Char) :
    ∀ c ∈ cleanTitle s, isIllegalChar c = false := by
  intro c hc
  exact cleanComponent_no_illegal s c (List.take_subset _ _ hc)

theorem output_name_no_illegal (title part upName suffix : List Char)
    (hsuffix : ∀ c ∈ suffix, isIllegalChar c = false) :
    ∀ c ∈ output_name title part upName suffix, isIllegalChar c = false := by
  have hmp4 : ∀ c ∈ ".mp4".toList, isIllegalChar c = false := by decide
  intro c hc
  unfold output_name at hc
  rcases List.mem_append.mp hc with h4 | h5
  · rcases List.mem_append.mp h4 with h3 | hsuf
    · rcases List.mem_append.mp h3 with h2 | hup
      · rcases List.mem_append.mp h2 with hA | hpart
        · exact cleanTitle_no_illegal _ c hA
        · rcases List.mem_cons.mp hpart with rfl | hpart
          · decide
          · exact cleanComponent_no_illegal _ c hpart
      · rcases List.mem_cons.mp hup with rfl | hup
        · decide
        · exact cleanComponent_no_illegal _ c hup
    · exact hsuffix c hsuf
  · exact hmp4 c h5

/-! ## Shape of a download_video run -/

theorem download_video_outputName (env : Env) (st : DLState) (mr : Nat)
    (bvid : List Char) (cid quality : Int) (suffix : List Char)
    (vi : VideoInfo) (page : PageInfo)
    (hmem : (bvid, cid, quality) ∉ st.downloaded)
    (hvi : env.videoInfo = some vi)
    (hpage : vi.pages.find? (fun p => p.cid == cid) = some page) :
    (download_video env st mr bvid cid quality suffix).outputName =
      some (output_name vi.title page.part (vi.ownerName.getD "unknown".toList) suffix) := by
  simp only [download_video, hvi, hpage, hmem, if_false, ite_false]
  split
  · rfl
  · split
    · rfl
    · split
      · rfl
      · split <;> rfl

theorem download_video_success_shape (env : Env) (st : DLState) (mr : Nat)
    (bvid : List Char) (cid quality : Int) (suffix : List Char)
    (vi : VideoInfo) (page : PageInfo)
    (hmem : (bvid, cid, quality) ∉ st.downloaded)
    (hvi : env.videoInfo = some vi)
    (hpage : vi.pages.find? (fun p => p.cid == cid) = some page)
    (hsucc : stages_succeed env mr quality = true) :
    download_video env st mr bvid cid quality suffix =
      { ret := true,
        state := { downloaded := st.downloaded ++ [(bvid, cid, quality)],
                   store := (save_download_entry st.store
                              (record_entry env vi bvid cid quality)).1,
                   tempVideo := FileSt.absent, tempAudio := FileSt.absent },
        outputName := some (output_name vi.title page.part
                              (vi.ownerName.getD "unknown".toList) suffix),
        trace := [Effect.metadataLookup, Effect.resolveStep, Effect.fetchV,
                  Effect.fetchA, Effect.muxStep] } := by
  simp only [stages_succeed, resolve_ok, Bool.and_eq_true, beq_iff_eq] at hsucc
  obtain ⟨⟨⟨⟨h1v, h1a⟩, h2⟩, h3⟩, hm⟩ := hsucc
  simp [download_video, hvi, hpage, hmem, h1v, h1a, h2, h3, hm, output_name]

theorem download_video_fail_unchanged (env : Env) (st : DLState) (mr : Nat)
    (bvid : List Char) (cid quality : Int) (suffix : List Char)
    (vi : VideoInfo) (page : PageInfo)
    (hmem : (bvid, cid, quality) ∉ st.downloaded)
    (hvi : env.videoInfo = some vi)
    (hpage : vi.pages.find? (fun p => p.cid == cid) = some page)
    (hfail : stages_succeed env mr quality = false) :
    (download_video env st mr bvid cid quality suffix).ret = false ∧
    (download_video env st mr bvid cid quality suffix).state.downloaded =
      st.downloaded ∧
    (download_video env st mr bvid cid quality suffix).state.store = st.store := by
  cases hrv : pyTruthy (get_media_urls env.playurl quality).1 with
  | false => simp [download_video, hvi, hpage, hmem, hrv]
  | true =>
    cases hra : pyTruthy (get_media_urls env.playurl quality).2 with
    | false => simp [download_video, hvi, hpage, hmem, hrv, hra]
    | true =>
      cases hdv : (download_media env.fetchVideo mr).1 with
      | false => simp [download_video, hvi, hpage, hmem, hrv, hra, hdv]
      | true =>
        cases hda : (download_media env.fetchAudio mr).1 with
        | false => simp [download_video, hvi, hpage, hmem, hrv, hra, hdv, hda]
        | true =>
          have hm : merge_files env.proc ≠ MergeOutcome.returned true := by
            intro hmm
            simp [stages_succeed, resolve_ok, hrv, hra, hdv, hda, hmm] at hfail
          cases hmo : merge_files env.proc with
          | raised => simp [download_video, hvi, hpage, hmem, hrv, hra, hdv, hda, hmo]
          | returned b =>
            cases b with
            | false => simp [download_video, hvi, hpage, hmem, hrv, hra, hdv, hda, hmo]
            | true => exact absurd hmo hm

/-! ## Claim theorems -/

/-- Claim C1: for every (item id, content-unit id, quality rank) triple
already present in the in-memory ledger set, `download_video` returns
success immediately, performs no network activity, and never invokes
the metadata lookup, the stream resolver, the fetcher, or the muxer
(empty effect trace, state untouched). -/
theorem skip_recorded_triple (env : Env) (st : DLState) (mr : Nat)
    (bvid : List Char) (cid quality : Int) (suffix : List Char)
    (h : (bvid, cid, quality) ∈ st.downloaded) :
    (download_video env st mr bvid cid quality suffix).ret = true ∧
    (download_video env st mr bvid cid quality suffix).trace = [] ∧
    (download_video env st mr bvid cid quality suffix).state = st := by
  simp [download_video, h]

/-- Witness for C1 at a concrete recorded triple. -/
theorem skip_recorded_triple_witness :
    ("bv1".toList, (2 : Int), (80 : Int)) ∈ stRecorded.downloaded ∧
    ((download_video envNoop stRecorded 3 "bv1".toList 2 80 []).ret = true ∧
     (download_video envNoop stRecorded 3 "bv1".toList 2 80 []).trace = [] ∧
     (download_video envNoop stRecorded 3 "bv1".toList 2 80 []).state = stRecorded) :=
  ⟨by decide, skip_recorded_triple envNoop stRecorded 3 "bv1".toList 2 80 [] (by decide)⟩

/-- Claim C2 (code bug): on the mux-failure outcome reached by a
non-zero ffmpeg exit, both job-scoped temporary track files remain on
disk after `download_video` returns False — the AttributeError raised
inside the CalledProcessError handler of `_merge_files` propagates past
the `unlink` calls of lines 314-315 to the outer handler at line 317. -/
theorem mux_nonzero_leaves_temp_files :
    (download_video envMuxFail stEmpty 3 "bv".toList 7 80 []).ret = false ∧
    (download_video envMuxFail stEmpty 3 "bv".toList 7 80 []).state.tempVideo =
      FileSt.complete ∧
    (download_video envMuxFail stEmpty 3 "bv".toList 7 80 []).state.tempAudio =
      FileSt.complete := by
  decide

/-- Counterexample to claim C3 as stated: with a syntactically invalid
persisted store, a subsequent record call does not succeed — nothing is
appended (`json.load` raises inside `_save_download_entry` before the
write) and the store stays invalid rather than becoming a valid store
containing the entry. -/
theorem corrupt_store_record_fails :
    load_download_history StoreFile.invalid = ([], true) ∧
    save_download_entry StoreFile.invalid corruptProbe = (StoreFile.invalid, false) := by
  decide

/-- Claim C3 (amended): a syntactically invalid store loads as an empty
in-memory history with a reported error and without raising; however,
every subsequent record call against the still-invalid store fails and
leaves it unchanged; record succeeds, appending the entry and leaving a
valid store, exactly when the persisted file is missing or valid. -/
theorem corrupt_store_recovery :
    load_download_history StoreFile.invalid = ([], true) ∧
    (∀ e, save_download_entry StoreFile.invalid e = (StoreFile.invalid, false)) ∧
    (∀ e, save_download_entry StoreFile.absent e = (StoreFile.valid [e], true)) ∧
    (∀ rs e, save_download_entry (StoreFile.valid rs) e =
      (StoreFile.valid (rs ++ [e]), true)) :=
  ⟨rfl, fun _ => rfl, fun _ => rfl, fun _ _ => rfl⟩

/-- Claim C7 (code bug): the muxer always builds the fixed argument
vector (unconditional overwrite `-y`, suppressed informational output
via `-loglevel error`, stream copy `-c copy`), and a launch failure is
translated into a False return; but when the tool exits with non-zero
status, `_merge_files` raises an unchecked AttributeError instead of
returning a failure result, because `e.stderr` is None
(`stderr=subprocess.DEVNULL`) and the exception inside the
CalledProcessError handler is not caught by the sibling handler. -/
theorem mux_invocation_and_error_translation :
    (∀ f v a o, ffmpeg_args f v a o =
      [f, "-y", "-loglevel", "error", "-i", v, "-i", a, "-c", "copy", o]) ∧
    merge_files ProcResult.exitedNonzero = MergeOutcome.raised ∧
    merge_files ProcResult.launchError = MergeOutcome.returned false :=
  ⟨fun _ _ _ _ => rfl, rfl, rfl⟩

/-- Claim C4: video selection picks, among the candidates whose quality
identifier equals the requested rank, one with maximum bandwidth; with
no candidate at the requested rank, selection yields none and
`_get_media_urls` fails with `(None, None)` — it never substitutes
another tier. -/
theorem video_selection_exact_rank (vlist : List StreamCand) (q : Int) :
    ((∀ c ∈ vlist, c.id ≠ q) → selectVideoStream vlist q = none) ∧
    ((∃ c ∈ vlist, c.id = q) → ∃ v, selectVideoStream vlist q = some v) ∧
    (∀ v, selectVideoStream vlist q = some v →
      v ∈ vlist ∧ v.id = q ∧ ∀ c ∈ vlist, c.id = q → c.bandwidth ≤ v.bandwidth) ∧
    (∀ alist, (∀ c ∈ vlist, c.id ≠ q) →
      get_media_urls
        (some { code := 0, dash := some { video := vlist, audio := alist } }) q =
        (none, none)) := by
  have hfil : ∀ (_ : ∀ c ∈ vlist, c.id ≠ q),
      vlist.filter (fun v => v.id == q) = [] := by
    intro h
    rw [List.filter_eq_nil_iff]
    intro a ha
    simp only [beq_iff_eq]
    exact h a ha
  refine ⟨?_, ?_, ?_, ?_⟩
  · intro h
    unfold selectVideoStream
    rw [hfil h]
    rfl
  · rintro ⟨c, hc, hcq⟩
    have hmem : c ∈ vlist.filter (fun v => v.id == q) :=
      List.mem_filter.mpr ⟨hc, by simp [hcq]⟩
    unfold selectVideoStream
    cases hf : vlist.filter (fun v => v.id == q) with
    | nil => rw [hf] at hmem; cases hmem
    | cons x xs => exact ⟨pyMaxAux (fun x => x.bandwidth) x xs, rfl⟩
  · intro v hv
    unfold selectVideoStream at hv
    obtain ⟨hmem, hmax⟩ := pyMax_spec _ _ _ hv
    obtain ⟨hin, hid⟩ := List.mem_filter.mp hmem
    refine ⟨hin, by simpa using hid, ?_⟩
    intro c hc hcq
    exact hmax c (List.mem_filter.mpr ⟨hc, by simp [hcq]⟩)
  · intro alist h
    have h0 : selectVideoStream vlist q = none := by
      unfold selectVideoStream
      rw [hfil h]
      rfl
    simp only [get_media_urls, h0]
    split <;> simp_all

/-- Witness for C4 at the spec's example: rank 80 with bandwidths
[500k, 900k, 700k] selects the 900k candidate. -/
theorem video_selection_exact_rank_witness :
    (∃ c ∈ demoVlist, c.id = 80) ∧ (∃ v, selectVideoStream demoVlist 80 = some v) ∧
    selectVideoStream demoVlist 80 =
      some { id := 80, bandwidth := 900000, baseUrl := some "u2".toList,
             base_url := none } :=
  ⟨by decide, (video_selection_exact_rank demoVlist 80).2.1 (by decide), by decide⟩

/-- Claim C5: audio selection prefers the first candidate carrying the
hi-res identifier 30251 unconditionally, regardless of bandwidth; when
no candidate carries it, the bandwidth maximum over all audio
candidates is selected. -/
theorem audio_selection_preference (alist : List StreamCand) :
    ((∃ a ∈ alist, a.id = 30251) →
      ∃ s, selectAudioStream alist = some s ∧ s.id = 30251 ∧ s ∈ alist) ∧
    ((∀ a ∈ alist, a.id ≠ 30251) →
      ∀ s, selectAudioStream alist = some s →
        s ∈ alist ∧ ∀ a ∈ alist, a.bandwidth ≤ s.bandwidth) := by
  constructor
  · rintro ⟨a, ha, haq⟩
    have hsome : (alist.find? (fun a => a.id == 30251)).isSome := by
      rw [List.find?_isSome]
      exact ⟨a, ha, by simp [haq]⟩
    obtain ⟨s, hs⟩ := Option.isSome_iff_exists.mp hsome
    refine ⟨s, ?_, ?_, List.mem_of_find?_eq_some hs⟩
    · unfold selectAudioStream
      rw [hs]
    · have := List.find?_some hs
      simpa using this
  · intro h s hs
    have hnone : alist.find? (fun a => a.id == 30251) = none := by
      rw [List.find?_eq_none]
      intro a ha
      simp only [beq_iff_eq]
      exact h a ha
    unfold selectAudioStream at hs
    rw [hnone] at hs
    exact pyMax_spec _ _ _ hs

/-- Witness for C5 at the spec's example: the 50k hi-res candidate is
selected over the 100k ordinary one. -/
theorem audio_selection_preference_witness :
    (∃ a ∈ demoAlist, a.id = 30251) ∧
    (∃ s, selectAudioStream demoAlist = some s ∧ s.id = 30251 ∧ s ∈ demoAlist) ∧
    selectAudioStream demoAlist =
      some { id := 30251, bandwidth := 50000, baseUrl := some "a2".toList,
             base_url := none } :=
  ⟨by decide, (audio_selection_preference demoAlist).1 (by decide), by decide⟩

/-- Claim C6: when the first k < maxRetries attempts fail and attempt
k+1 succeeds, the fetch returns success with a complete file at the
destination, and the file observed at the start of each retry is absent
(each failed attempt deleted the partially written file); when all
maxRetries attempts fail, the fetch returns failure and nothing is left
at the destination path. -/
theorem fetch_retry_and_exhaustion (outcome : Nat → AttemptResult) (maxRetries k : Nat) :
    (k < maxRetries → outcome k = AttemptResult.ok →
      (∀ i, i < k → outcome i ≠ AttemptResult.ok) →
      download_media_run outcome maxRetries =
        (true, FileSt.complete, List.replicate k FileSt.absent)) ∧
    (0 < maxRetries → (∀ i, i < maxRetries → outcome i ≠ AttemptResult.ok) →
      download_media_run outcome maxRetries =
        (false, FileSt.absent, List.replicate maxRetries FileSt.absent)) := by
  constructor
  · intro hk hok hfail
    unfold download_media_run
    exact download_media_aux_success outcome maxRetries 0 k FileSt.absent hk
      (by simpa using hok) (fun i hi => by simpa using hfail i hi)
  · intro h0 hfail
    unfold download_media_run
    exact download_media_aux_exhaust outcome maxRetries 0 FileSt.absent h0
      (fun i hi => by simpa using hfail i hi)

/-- Witness for C6: two failures then success with maxRetries = 3, and
an all-failing transfer with maxRetries = 3. -/
theorem fetch_retry_and_exhaustion_witness :
    ((2 : Nat) < 3 ∧ demoOutcome 2 = AttemptResult.ok ∧
      (∀ i, i < 2 → demoOutcome i ≠ AttemptResult.ok)) ∧
    download_media_run demoOutcome 3 =
      (true, FileSt.complete, List.replicate 2 FileSt.absent) ∧
    ((0 : Nat) < 3 ∧ (∀ i, i < 3 → demoOutcomeAllFail i ≠ AttemptResult.ok)) ∧
    download_media_run demoOutcomeAllFail 3 =
      (false, FileSt.absent, List.replicate 3 FileSt.absent) :=
  ⟨⟨by decide, by decide, by decide⟩,
   (fetch_retry_and_exhaustion demoOutcome 3 2).1 (by decide) (by decide) (by decide),
   ⟨by decide, by decide⟩,
   (fetch_retry_and_exhaustion demoOutcomeAllFail 3 0).2 (by decide) (by decide)⟩

/-- Counterexample to claim C8 as stated: with a syntactically invalid
persisted store and every stage succeeding, `download_video` returns
True and adds the key to the in-memory set, yet the persisted store is
not rewritten — it stays invalid with no entry appended — so the entry
is not written to "both the in-memory set and the persisted store". -/
theorem success_with_corrupt_store_not_persisted :
    (download_video envAllOk stCorrupt 3 "bv".toList 7 80 []).ret = true ∧
    (download_video envAllOk stCorrupt 3 "bv".toList 7 80 []).state.downloaded =
      [("bv".toList, 7, 80)] ∧
    (download_video envAllOk stCorrupt 3 "bv".toList 7 80 []).state.store =
      StoreFile.invalid := by
  decide

/-- Claim C8 (amended): provided the persisted store is a valid record
list, a `download_video` job writes the entry to both the in-memory set
and the persisted store if and only if resolution, both fetches, and
the mux all succeed: on success the key is appended to the in-memory
set and the store is synchronously rewritten with the entry appended
before the call returns, and on any stage failure both are unchanged.
(With a corrupt store, a successful job updates only the in-memory
set.) -/
theorem ledger_written_iff_stages_succeed (env : Env) (st : DLState) (mr : Nat)
    (bvid : List Char) (cid quality : Int) (suffix : List Char)
    (vi : VideoInfo) (page : PageInfo) (rs : List LedgerEntry)
    (hmem : (bvid, cid, quality) ∉ st.downloaded)
    (hvi : env.videoInfo = some vi)
    (hpage : vi.pages.find? (fun p => p.cid == cid) = some page)
    (hstore : st.store = StoreFile.valid rs) :
    (stages_succeed env mr quality = true →
      (download_video env st mr bvid cid quality suffix).ret = true ∧
      (download_video env st mr bvid cid quality suffix).state.downloaded =
        st.downloaded ++ [(bvid, cid, quality)] ∧
      (download_video env st mr bvid cid quality suffix).state.store =
        StoreFile.valid (rs ++ [record_entry env vi bvid cid quality])) ∧
    (stages_succeed env mr quality = false →
      (download_video env st mr bvid cid quality suffix).ret = false ∧
      (download_video env st mr bvid cid quality suffix).state.downloaded =
        st.downloaded ∧
      (download_video env st mr bvid cid quality suffix).state.store = st.store) := by
  constructor
  · intro hsucc
    rw [download_video_success_shape env st mr bvid cid quality suffix vi page
      hmem hvi hpage hsucc]
    refine ⟨rfl, rfl, ?_⟩
    rw [hstore]
    rfl
  · intro hfail
    exact download_video_fail_unchanged env st mr bvid cid quality suffix vi page
      hmem hvi hpage hfail

/-- Witness for C8 at an all-success environment over a valid empty
store. -/
theorem ledger_written_iff_stages_succeed_witness :
    stages_succeed envAllOk 3 80 = true ∧
    ((download_video envAllOk stEmpty 3 "bv".toList 7 80 []).ret = true ∧
     (download_video envAllOk stEmpty 3 "bv".toList 7 80 []).state.downloaded =
       stEmpty.downloaded ++ [("bv".toList, 7, 80)] ∧
     (download_video envAllOk stEmpty 3 "bv".toList 7 80 []).state.store =
       StoreFile.valid ([] ++ [record_entry envAllOk viDemo "bv".toList 7 80])) :=
  ⟨by decide,
   (ledger_written_iff_stages_succeed envAllOk stEmpty 3 "bv".toList 7 80 []
     viDemo pageDemo [] (by decide) rfl (by decide) rfl).1 (by decide)⟩

/-- Claim C9: for arbitrary title, page label, and uploader name, the
output filename `download_video` builds is the sanitized title, the
sanitized page label, the sanitized uploader name, and the suffix
joined with the fixed separators, and it contains none of the
characters \\ / : * ? " < > | (assuming the caller-supplied suffix is
itself free of them, as the program's "" and "-hdr" are). -/
theorem output_filename_sanitized (env : Env) (st : DLState) (mr : Nat)
    (bvid : List Char) (cid quality : Int) (suffix : List Char)
    (vi : VideoInfo) (page : PageInfo)
    (hmem : (bvid, cid, quality) ∉ st.downloaded)
    (hvi : env.videoInfo = some vi)
    (hpage : vi.pages.find? (fun p => p.cid == cid) = some page)
    (hsuffix : ∀ c ∈ suffix, isIllegalChar c = false) :
    (download_video env st mr bvid cid quality suffix).outputName =
      some (output_name vi.title page.part (vi.ownerName.getD "unknown".toList) suffix) ∧
    output_name vi.title page.part (vi.ownerName.getD "unknown".toList) suffix =
      cleanTitle vi.title ++ ('_' :: cleanComponent page.part) ++
        ('-' :: cleanComponent (vi.ownerName.getD "unknown".toList)) ++ suffix ++
        ".mp4".toList ∧
    (∀ c ∈ output_name vi.title page.part (vi.ownerName.getD "unknown".toList) suffix,
      isIllegalChar c = false) :=
  ⟨download_video_outputName env st mr bvid cid quality suffix vi page hmem hvi hpage,
   rfl,
   output_name_no_illegal vi.title page.part (vi.ownerName.getD "unknown".toList)
     suffix hsuffix⟩

/-- Witness for C9 at the spec's example: title `a/b:c*d` and uploader
`x<y>z` combine into `abcd_p1-xyz.mp4`, which has no illegal
character. -/
theorem output_filename_sanitized_witness :
    (∀ c ∈ ([] : List Char), isIllegalChar c = false) ∧
    (∀ c ∈ output_name viSan.title pageDemo.part
        (viSan.ownerName.getD "unknown".toList) [],
      isIllegalChar c = false) ∧
    output_name viSan.title pageDemo.part (viSan.ownerName.getD "unknown".toList) [] =
      "abcd_p1-xyz.mp4".toList :=
  ⟨by decide,
   (output_filename_sanitized envSan stEmpty 3 "bv".toList 7 80 [] viSan pageDemo
     (by decide) rfl (by decide) (by decide)).2.2,
   by decide⟩

/-- Claim C10: the title component used in the output filename and in
the recorded ledger entry is the sanitized, stripped title truncated to
its first 100 characters — when the sanitized title is longer than 100
characters only that 100-character prefix appears — while the page
label and uploader name components are the full sanitized strings,
untruncated. -/
theorem title_truncated_at_100 (env : Env) (st : DLState) (mr : Nat)
    (bvid : List Char) (cid quality : Int) (suffix : List Char)
    (vi : VideoInfo) (page : PageInfo) (rs : List LedgerEntry)
    (hmem : (bvid, cid, quality) ∉ st.downloaded)
    (hvi : env.videoInfo = some vi)
    (hpage : vi.pages.find? (fun p => p.cid == cid) = some page)
    (hstore : st.store = StoreFile.valid rs)
    (hsucc : stages_succeed env mr quality = true)
    (hlen : 100 < (cleanComponent vi.title).length) :
    cleanTitle vi.title = (cleanComponent vi.title).take 100 ∧
    (cleanTitle vi.title).length = 100 ∧
    (record_entry env vi bvid cid quality).title = (cleanComponent vi.title).take 100 ∧
    (record_entry env vi bvid cid quality).up =
      cleanComponent (vi.ownerName.getD "unknown".toList) ∧
    (download_video env st mr bvid cid quality suffix).state.store =
      StoreFile.valid (rs ++ [record_entry env vi bvid cid quality]) ∧
    (download_video env st mr bvid cid quality suffix).outputName =
      some ((cleanComponent vi.title).take 100 ++ ('_' :: cleanComponent page.part) ++
        ('-' :: cleanComponent (vi.ownerName.getD "unknown".toList)) ++ suffix ++
        ".mp4".toList) := by
  have hshape := download_video_success_shape env st mr bvid cid quality suffix vi page
    hmem hvi hpage hsucc
  refine ⟨rfl, ?_, rfl, rfl, ?_, ?_⟩
  · rw [cleanTitle, List.length_take]
    omega
  · rw [hshape, hstore]
    rfl
  · rw [hshape]
    rfl

set_option maxRecDepth 4000 in
/-- Witness for C10 at a title of 150 identical characters. -/
theorem title_truncated_at_100_witness :
    (100 < (cleanComponent viLong.title).length ∧
      stages_succeed envLongTitle 3 80 = true) ∧
    (cleanTitle viLong.title).length = 100 :=
  ⟨⟨by decide, by decide⟩,
   (title_truncated_at_100 envLongTitle stEmpty 3 "bv".toList 7 80 [] viLong pageDemo []
     (by decide) rfl (by decide) rfl (by decide) (by decide)).2.1⟩

end Bili
